import Mathlib

/-
Verification of the SunSync API orchestration layer (src/api.py) against its
natural-language specification.

The embedding translates the Python module src/api.py into Lean. Conventions:

* JSON documents are modelled by the inductive type JsonVal. JSON numbers are
  modelled as integers; no claim involves fractional numbers.
* The external world (the curl subprocess together with the file system state
  of the response sink after each curl invocation) is modelled as a stream
  outs : Nat -> CurlOutcome. Attempt number i of a call observes outs i. This
  reflects that the code only interacts with the network through
  subprocess.call of curl and only interacts with the sink file it just asked
  curl to write.
* Python exceptions that the source does not catch are modelled with the
  Outcome type: Outcome.raised propagates like an uncaught exception.
* The Python json.loads function applied to the caller supplied settings
  string is modelled as an explicit oracle loads : String -> Option JsonVal
  (none means json.JSONDecodeError). The json.load of a response file is part
  of FileState (field json: none means parsing raises, caught by the source).
* log_message and time.sleep are external collaborators with no effect on the
  values computed; they are omitted. Verbose logging (ENABLE_VERBOSE_LOG) only
  prints and is likewise omitted.
* Python scoping: get_auth_token contains assignment statements to the names
  SERVER_API_BEARER_TOKEN, SERVER_API_BEARER_TOKEN_SUCCESS and
  SERVER_API_BEARER_TOKEN_MSG and no global declaration, so in Python all
  three names are function local throughout get_auth_token; the module level
  globals are neither read nor written by it. The embedding therefore threads
  the local triple (AuthLocals) through the loop and returns the module
  globals unchanged. All other functions only read the globals.
-/

namespace SunSync

/-- JSON values as produced by json.load / json.loads. -/
inductive JsonVal where
  | null : JsonVal
  | bool (b : Bool) : JsonVal
  | str (s : String) : JsonVal
  | num (n : Int) : JsonVal
  | arr (elts : List JsonVal) : JsonVal
  | obj (fields : List (String × JsonVal)) : JsonVal

/-- Python truthiness of a JSON-decoded value (`if x:`). -/
def JsonVal.truthy : JsonVal → Bool
  | .null => false
  | .bool b => b
  | .str s => !(s == "")
  | .num n => !(n == 0)
  | .arr elts => !elts.isEmpty
  | .obj fields => !fields.isEmpty

/-- Python equality test `v == s` between a JSON-decoded value and a string
literal: true exactly when v is that string. In particular the Python boolean
True compares unequal to the string "true". -/
def pyEqStr : JsonVal → String → Bool
  | .str t, s => t == s
  | _, _ => false

/-- Result of running a piece of Python code: a value, or an uncaught
exception identified by its class name. -/
inductive Outcome (α : Type) where
  | ok (val : α) : Outcome α
  | raised (err : String) : Outcome α

/-- Python `v.get(key, dflt)`: defined on dicts, raises AttributeError on any
other JSON value (strings, lists, numbers, booleans, null have no get). -/
def pyGet (v : JsonVal) (key : String) (dflt : JsonVal) : Outcome JsonVal :=
  match v with
  | .obj fields => .ok ((List.lookup key fields).getD dflt)
  | _ => .raised "AttributeError"

/-- State of the response sink file after one curl invocation: absent, or
present with a byte size and the result of json parsing its content (none
when json.load would raise). -/
inductive FileState where
  | absent : FileState
  | present (size : Nat) (json : Option JsonVal) : FileState

/-- Observable outcome of one curl subprocess invocation: whether
subprocess.call returned 0, and the state of the output file afterwards. -/
structure CurlOutcome where
  exitZero : Bool
  fileState : FileState

/-- The module level globals of src/api.py (lines 12 to 14), all initialized
to the empty string at process start. -/
structure Globals where
  SERVER_API_BEARER_TOKEN : String
  SERVER_API_BEARER_TOKEN_SUCCESS : String
  SERVER_API_BEARER_TOKEN_MSG : String

/-- The module state at process start: all three globals empty. -/
def initialGlobals : Globals := ⟨"", "", ""⟩

/-- DEFAULT_MAX_RETRIES from src/api.py line 17. -/
def DEFAULT_MAX_RETRIES : Nat := 3

/-- DEFAULT_RETRY_DELAY from src/api.py line 18 (sleeps have no effect on the
computed values; recorded for completeness). -/
def DEFAULT_RETRY_DELAY : Nat := 30

/-- Return value of api_call: the integer status, the total number of curl
invocations consumed from the stream so far (final stream index), and the
sink file state after the last attempt. -/
structure ApiRet where
  status : Nat
  attempts : Nat
  file : FileState

/-- The while loop of api_call (src/api.py lines 211 to 273). fuel is the
number of loop iterations still allowed (DEFAULT_MAX_RETRIES minus
retry_count); idx is the stream index of the next curl invocation. discard
records whether output_file is /dev/null, in which case the emptiness check
is skipped. When curl exits 0 and the sink is not the discard sink, the
source runs os.stat(output_file) with no exception handler: on an absent file
this raises FileNotFoundError. When the body is empty on the last allowed
iteration, the source increments retry_count, the `retry_count <
DEFAULT_MAX_RETRIES` test fails, and control falls through to `return 0`. -/
def apiCallLoop (discard : Bool) (outs : Nat → CurlOutcome) (idx : Nat) :
    Nat → Outcome ApiRet
  | 0 => .ok ⟨1, idx, (outs (idx - 1)).fileState⟩
  | n + 1 =>
    if (outs idx).exitZero then
      if discard then
        .ok ⟨0, idx + 1, (outs idx).fileState⟩
      else
        match (outs idx).fileState with
        | .absent => .raised "FileNotFoundError"
        | .present size js =>
          if size = 0 then
            if 0 < n then
              apiCallLoop discard outs (idx + 1) n
            else
              .ok ⟨0, idx + 1, .present size js⟩
          else
            .ok ⟨0, idx + 1, .present size js⟩
    else
      apiCallLoop discard outs (idx + 1) n

/-- api_call viewed from a caller whose next unconsumed stream index is idx
(the function itself always starts its own retry_count at 0). Only
output_file influences the control flow; method, url and headers only shape
the curl command line, which the outcome stream abstracts. -/
def api_call_from (output_file : String) (outs : Nat → CurlOutcome)
    (idx : Nat) : Outcome ApiRet :=
  apiCallLoop (output_file == "/dev/null") outs idx DEFAULT_MAX_RETRIES

/-- api_call of src/api.py (lines 191 to 273). -/
def api_call (method url output_file : String) (headers : List String)
    (outs : Nat → CurlOutcome) : Outcome ApiRet :=
  api_call_from output_file outs 0

/-- The three function-local names of get_auth_token that shadow the module
globals (none: not yet assigned in this call). -/
structure AuthLocals where
  token : Option JsonVal
  success : Option JsonVal
  msg : Option JsonVal

/-- Result of the get_auth_token retry loop: status, final stream index, and
the final values of the three function-local variables. -/
structure AuthCore where
  status : Nat
  attempts : Nat
  locals : AuthLocals

/-- Full result of get_auth_token: loop result plus the module globals after
the call (unchanged, since the function assigns only locals). -/
structure AuthRet where
  status : Nat
  attempts : Nat
  locals : AuthLocals
  globals : Globals

/-- The while loop of get_auth_token (src/api.py lines 31 to 143). Each
iteration runs the nested api_call and tests `if api_call(...)`: api_call
returns the integer 0 on success and 1 on failure, and Python truthiness of
an integer makes this condition hold exactly when the returned status is
nonzero. The token.json inspection branch therefore runs on iterations whose
api_call FAILED, reading whatever file state the failed attempts left
behind, while a transport-successful api_call (status 0) sends the loop to
the else branch (log the error, sleep, retry). Inside the inspection branch:
a missing file, or a file whose content does not parse, advances the loop;
otherwise the JSON document is interrogated with .get, which raises
AttributeError when the document (or a non-defaulted data member) is not an
object, and the acceptance test is
`SERVER_API_BEARER_TOKEN_SUCCESS == "true" and SERVER_API_BEARER_TOKEN`. -/
def getAuthLoop (outs : Nat → CurlOutcome) (idx : Nat) (loc : AuthLocals) :
    Nat → Outcome AuthCore
  | 0 => .ok ⟨1, idx, loc⟩
  | n + 1 =>
    match api_call_from "token.json" outs idx with
    | .raised e => .raised e
    | .ok r =>
      if r.status = 0 then
        getAuthLoop outs r.attempts loc n
      else
        match r.file with
        | .absent => getAuthLoop outs r.attempts loc n
        | .present _ none => getAuthLoop outs r.attempts loc n
        | .present _ (some v) =>
          match pyGet v "data" (.obj []) with
          | .raised e => .raised e
          | .ok dataVal =>
            match pyGet dataVal "access_token" (.str "") with
            | .raised e => .raised e
            | .ok tok =>
              match pyGet v "success" (.str "false") with
              | .raised e => .raised e
              | .ok suc =>
                if pyEqStr suc "true" && tok.truthy then
                  .ok ⟨0, r.attempts, ⟨some tok, some suc, loc.msg⟩⟩
                else
                  match pyGet v "msg" (.str "Unknown error") with
                  | .raised e => .raised e
                  | .ok m =>
                    getAuthLoop outs r.attempts ⟨some tok, some suc, some m⟩ n

/-- get_auth_token of src/api.py (lines 22 to 151). The assignments inside
the function bind function-local names (no global declaration), so the module
globals g are returned unchanged on every path; the `return 0` after the loop
(line 151) is unreachable because the loop only exits when retry_count has
reached DEFAULT_MAX_RETRIES. -/
def get_auth_token (g : Globals) (outs : Nat → CurlOutcome) :
    Outcome AuthRet :=
  match getAuthLoop outs 0 ⟨none, none, none⟩ DEFAULT_MAX_RETRIES with
  | .ok r => .ok ⟨r.status, r.attempts, r.locals, g⟩
  | .raised e => .raised e

/-- validate_token of src/api.py (lines 155 to 187): a pure check of the
module-global bearer token, no network access. -/
def validate_token (g : Globals) : Nat :=
  if g.SERVER_API_BEARER_TOKEN = "" then 1 else 0

/-- Status and attempt count returned to callers of the higher level
functions (their sink file state is not part of their return value). -/
structure CallRet where
  status : Nat
  attempts : Nat

/-- Forget the file component of an api_call result. -/
def toCallRet : Outcome ApiRet → Outcome CallRet
  | .ok r => .ok ⟨r.status, r.attempts⟩
  | .raised e => .raised e

/-- sunsynk_api_call of src/api.py (lines 277 to 302): parameter guard, then
module-global token guard, then a single delegation to api_call. It never
invokes get_auth_token. -/
def sunsynk_api_call (endpoint output_file : String) (g : Globals)
    (outs : Nat → CurlOutcome) : Outcome CallRet :=
  if endpoint = "" ∨ output_file = "" then .ok ⟨1, 0⟩
  else if g.SERVER_API_BEARER_TOKEN = "" then .ok ⟨1, 0⟩
  else
    toCallRet (api_call "GET" endpoint output_file
      ["Content-Type: application/json"] outs)

/-- ha_api_call of src/api.py (lines 306 to 346): parameter guard, HA token
guard, then a single delegation to api_call. The url is assembled from
environment supplied scheme, host and port; the outcome stream abstracts the
wire, so the url components do not appear. -/
def ha_api_call (endpoint method dataArg output_file haToken : String)
    (outs : Nat → CurlOutcome) : Outcome CallRet :=
  if endpoint = "" then .ok ⟨1, 0⟩
  else if haToken = "" then .ok ⟨1, 0⟩
  else toCallRet (api_call method endpoint output_file [] outs)

/-- The while loop of send_inverter_settings (src/api.py lines 395 to 525).
Each iteration delegates one full api_call; on transport success it inspects
the response file: missing file, unparsable content and a non-"true" success
field all advance the loop (each such branch returns 1 directly when
retry_count has just reached DEFAULT_MAX_RETRIES, which coincides with the
value produced by running out of fuel); a success field equal to the string
"true" is terminal success. -/
def sendLoop (outs : Nat → CurlOutcome) (idx : Nat) : Nat → Outcome CallRet
  | 0 => .ok ⟨1, idx⟩
  | n + 1 =>
    match api_call_from "inverter_settings_response.json" outs idx with
    | .raised e => .raised e
    | .ok r =>
      if r.status = 0 then
        match r.file with
        | .absent => sendLoop outs r.attempts n
        | .present _ none => sendLoop outs r.attempts n
        | .present _ (some v) =>
          match pyGet v "success" (.str "false") with
          | .raised e => .raised e
          | .ok suc =>
            if pyEqStr suc "true" then
              .ok ⟨0, r.attempts⟩
            else
              match pyGet v "msg" (.str "Unknown error") with
              | .raised e => .raised e
              | .ok _ => sendLoop outs r.attempts n
      else
        sendLoop outs r.attempts n

/-- send_inverter_settings of src/api.py (lines 350 to 525): empty parameter
guard, json.loads validation of settings_data (loads is the oracle modelling
Python json.loads; none models json.JSONDecodeError), then the retry loop.
The module-global bearer token g only shapes a request header. -/
def send_inverter_settings (inverter_sn settings_data : String)
    (loads : String → Option JsonVal) (g : Globals)
    (outs : Nat → CurlOutcome) : Outcome CallRet :=
  if inverter_sn = "" ∨ settings_data = "" then .ok ⟨1, 0⟩
  else
    match loads settings_data with
    | none => .ok ⟨1, 0⟩
    | some _ => sendLoop outs 0 DEFAULT_MAX_RETRIES

/-- Status projection of a get_auth_token result (a raise is marked 99,
distinct from every status the function returns). -/
def statusOf : Outcome AuthRet → Nat
  | .ok r => r.status
  | .raised _ => 99

/-- Attempt-count projection of a get_auth_token result. -/
def attemptsOf : Outcome AuthRet → Nat
  | .ok r => r.attempts
  | .raised _ => 99

/-- Status projection of a CallRet result. -/
def callStatusOf : Outcome CallRet → Nat
  | .ok r => r.status
  | .raised _ => 99

/-- Globals after a get_auth_token call: the returned globals, or, when the
call raises, the module state g it started from (an uncaught exception leaves
module state untouched). -/
def authGlobals : Outcome AuthRet → Globals → Globals
  | .ok r, _ => r.globals
  | .raised _, g => g

/-- The Token invariant of the specification, read on the process-wide state:
a truthy success flag implies a non-empty token value. -/
def TokenInvariant (g : Globals) : Prop :=
  g.SERVER_API_BEARER_TOKEN_SUCCESS = "true" → g.SERVER_API_BEARER_TOKEN ≠ ""

/-- A first-attempt response accepted by get_auth_token. -/
def respOk : JsonVal :=
  .obj [("success", .str "true"), ("data", .obj [("access_token", .str "abc")])]

/-- Transport succeeds on every attempt and always delivers respOk. -/
def okStream : Nat → CurlOutcome :=
  fun _ => ⟨true, .present 200 (some respOk)⟩

/-- Transport fails (curl exit nonzero) on every attempt. -/
def failStream : Nat → CurlOutcome :=
  fun _ => ⟨false, .absent⟩

/-- Transport succeeds on every attempt but leaves a 0-byte response file,
whose content does not parse as JSON. -/
def emptyStream : Nat → CurlOutcome :=
  fun _ => ⟨true, .present 0 none⟩

/-- curl reports success (exit 0) but the sink file is absent afterwards, as
older curl does when it receives an empty body with -o (no data, no file). -/
def ghostStream : Nat → CurlOutcome :=
  fun _ => ⟨true, .absent⟩

/-- Transport fails (curl exit nonzero) on every attempt, but a stale file
survives in the sink holding the JSON document "maintenance": a valid JSON
text whose top-level value is a string, not an object. -/
def staleNonObjStream : Nat → CurlOutcome :=
  fun _ => ⟨false, .present 13 (some (.str "maintenance"))⟩

/-- Transport succeeds on every attempt with a response whose success field
is the given JSON value s and whose data member carries access_token "abc". -/
def mkSuccessStream (s : JsonVal) : Nat → CurlOutcome :=
  fun _ =>
    ⟨true, .present 200 (some (.obj
      [("success", s), ("data", .obj [("access_token", .str "abc")])]))⟩

/-- Transport fails (curl exit nonzero) on every attempt, but a stale
parseable response survives in the sink, with success field s and a data
member carrying access_token "abc". Because get_auth_token inspects the sink
exactly when api_call failed, this is the stream on which its success check
is actually exercised. -/
def mkStaleStream (s : JsonVal) : Nat → CurlOutcome :=
  fun _ =>
    ⟨false, .present 200 (some (.obj
      [("success", s), ("data", .obj [("access_token", .str "abc")])]))⟩

/-- First attempt answers success "false" (with a message), every later
attempt answers success "true". -/
def pushFlipStream : Nat → CurlOutcome :=
  fun i =>
    if i = 0 then
      ⟨true, .present 40 (some (.obj [("success", .str "false"), ("msg", .str "busy")]))⟩
    else
      ⟨true, .present 40 (some (.obj [("success", .str "true")]))⟩

/-- Concrete oracle for Python json.loads: accepts exactly the text of the
empty JSON object. -/
def loads0 : String → Option JsonVal :=
  fun s => if s = "\x7b\x7d" then some (.obj []) else none

/-- A module state carrying a valid-looking token, used to exercise the
Token invariant non-vacuously. -/
def gValid : Globals := ⟨"abc", "true", ""⟩

/-- Helper: get_auth_token returns the module globals it was given, on every
non-raising path. -/
theorem get_auth_token_globals_eq (g : Globals) (outs : Nat → CurlOutcome)
    (r : AuthRet) (h : get_auth_token g outs = Outcome.ok r) : r.globals = g := by
  unfold get_auth_token at h
  cases hc : getAuthLoop outs 0 ⟨none, none, none⟩ DEFAULT_MAX_RETRIES with
  | ok r0 => rw [hc] at h; cases h; rfl
  | raised e => rw [hc] at h; cases h

/-- Helper: one iteration of the api_call loop on a failing transport moves
to the next attempt. -/
theorem apiCallLoop_fail_step (d : Bool) (outs : Nat → CurlOutcome)
    (idx n : Nat) (h : (outs idx).exitZero = false) :
    apiCallLoop d outs idx (n + 1) = apiCallLoop d outs (idx + 1) n := by
  simp only [apiCallLoop, h, Bool.false_eq_true, if_false]

/-- Helper: a permanently failing transport drives the api_call loop through
all its fuel and ends with status 1. -/
theorem apiCallLoop_allFail (d : Bool) (outs : Nat → CurlOutcome)
    (h : ∀ i, (outs i).exitZero = false) :
    ∀ fuel idx, apiCallLoop d outs idx fuel =
      Outcome.ok ⟨1, idx + fuel, (outs (idx + fuel - 1)).fileState⟩ := by
  intro fuel
  induction fuel with
  | zero => intro idx; simp [apiCallLoop]
  | succ n ih =>
    intro idx
    rw [apiCallLoop_fail_step d outs idx n (h idx), ih (idx + 1)]
    have e : idx + 1 + n = idx + (n + 1) := by omega
    rw [e]

/-- Helper: one iteration of the get_auth_token loop on a permanently failing
transport that leaves the sink absent consumes the three attempts of the
nested api_call, enters the inspection branch (the failed api_call status is
truthy), finds no file, and moves on. -/
theorem getAuthLoop_allFail_step (outs : Nat → CurlOutcome) (idx : Nat)
    (loc : AuthLocals) (n : Nat)
    (h : ∀ i, outs i = CurlOutcome.mk false FileState.absent) :
    getAuthLoop outs idx loc (n + 1) = getAuthLoop outs (idx + 3) loc n := by
  have ha : api_call_from "token.json" outs idx =
      Outcome.ok ⟨1, idx + 3, FileState.absent⟩ := by
    have h2 := apiCallLoop_allFail (("token.json" : String) == "/dev/null")
      outs (fun i => by rw [h i]) 3 idx
    rw [h (idx + 3 - 1)] at h2
    exact h2
  simp only [getAuthLoop, ha]
  norm_num

/-- Helper: a successful transport attempt with a non-empty sink makes
api_call return 0 after exactly one attempt. -/
theorem apiCallLoop_ok_step (outs : Nat → CurlOutcome) (idx n sz : Nat)
    (js : Option JsonVal) (he : (outs idx).exitZero = true)
    (hf : (outs idx).fileState = .present sz js) (hsz : sz ≠ 0) :
    apiCallLoop false outs idx (n + 1) =
      Outcome.ok ⟨0, idx + 1, .present sz js⟩ := by
  simp only [apiCallLoop, he, hf, if_true, if_neg hsz]
  simp

/-- Helper: api_call on a non-discard sink with a successful, non-empty first
attempt. -/
theorem api_call_from_ok (f : String) (outs : Nat → CurlOutcome)
    (idx sz : Nat) (js : Option JsonVal) (hfile : (f == "/dev/null") = false)
    (he : (outs idx).exitZero = true)
    (hf : (outs idx).fileState = .present sz js) (hsz : sz ≠ 0) :
    api_call_from f outs idx = Outcome.ok ⟨0, idx + 1, .present sz js⟩ := by
  unfold api_call_from
  rw [hfile]
  exact apiCallLoop_ok_step outs idx 2 sz js he hf hsz

/-- Helper: on a permanently failing transport with a stale sink answering
success field s (s not the string "true") and access_token "abc", one
iteration of the get_auth_token loop consumes the three nested transport
attempts, inspects the stale file, stores the extracted values in the local
triple and retries. -/
theorem getAuthLoop_stale_reject_step (s : JsonVal) (idx : Nat)
    (loc : AuthLocals) (n : Nat) (hs : pyEqStr s "true" = false) :
    getAuthLoop (mkStaleStream s) idx loc (n + 1) =
      getAuthLoop (mkStaleStream s) (idx + 3)
        ⟨some (.str "abc"), some s, some (.str "Unknown error")⟩ n := by
  have ha : api_call_from "token.json" (mkStaleStream s) idx =
      Outcome.ok ⟨1, idx + 3, .present 200 (some (.obj
        [("success", s), ("data", .obj [("access_token", .str "abc")])]))⟩ :=
    apiCallLoop_allFail (("token.json" : String) == "/dev/null")
      (mkStaleStream s) (fun _ => rfl) 3 idx
  simp only [getAuthLoop, ha]
  simp [pyGet, List.lookup, hs, JsonVal.truthy]

/-- Helper: with a permanently failing transport and a stale sink whose
success field s is not the string "true", get_auth_token runs all three
outer iterations (three transport attempts each) and fails. -/
theorem getAuth_mkStale_reject (s : JsonVal)
    (hs : pyEqStr s "true" = false) :
    get_auth_token initialGlobals (mkStaleStream s) =
      Outcome.ok ⟨1, 9,
        ⟨some (.str "abc"), some s, some (.str "Unknown error")⟩,
        initialGlobals⟩ := by
  have e1 : getAuthLoop (mkStaleStream s) 0 ⟨none, none, none⟩ 3 =
      getAuthLoop (mkStaleStream s) 3
        ⟨some (.str "abc"), some s, some (.str "Unknown error")⟩ 2 :=
    getAuthLoop_stale_reject_step s 0 ⟨none, none, none⟩ 2 hs
  have e2 : getAuthLoop (mkStaleStream s) 3
      ⟨some (.str "abc"), some s, some (.str "Unknown error")⟩ 2 =
      getAuthLoop (mkStaleStream s) 6
        ⟨some (.str "abc"), some s, some (.str "Unknown error")⟩ 1 :=
    getAuthLoop_stale_reject_step s 3 _ 1 hs
  have e3 : getAuthLoop (mkStaleStream s) 6
      ⟨some (.str "abc"), some s, some (.str "Unknown error")⟩ 1 =
      getAuthLoop (mkStaleStream s) 9
        ⟨some (.str "abc"), some s, some (.str "Unknown error")⟩ 0 :=
    getAuthLoop_stale_reject_step s 6 _ 0 hs
  unfold get_auth_token DEFAULT_MAX_RETRIES
  rw [e1, e2, e3]
  rfl

/-- Helper: one iteration of the send_inverter_settings loop on a stream
whose success field is s (not the string "true") retries. -/
theorem sendLoop_reject_step (s : JsonVal) (idx n : Nat)
    (hs : pyEqStr s "true" = false) :
    sendLoop (mkSuccessStream s) idx (n + 1) =
      sendLoop (mkSuccessStream s) (idx + 1) n := by
  have ha : api_call_from "inverter_settings_response.json"
      (mkSuccessStream s) idx =
      Outcome.ok ⟨0, idx + 1, .present 200 (some (.obj
        [("success", s), ("data", .obj [("access_token", .str "abc")])]))⟩ :=
    api_call_from_ok _ _ _ _ _ (by decide) rfl rfl (by decide)
  simp only [sendLoop, ha]
  simp [pyGet, List.lookup, hs]

/-- Helper: with success field s not the string "true" on every attempt,
send_inverter_settings exhausts its three attempts and fails. -/
theorem send_mkSuccess_reject (s : JsonVal) (hs : pyEqStr s "true" = false) :
    send_inverter_settings "SN1" "\x7b\x7d" loads0 initialGlobals
      (mkSuccessStream s) = Outcome.ok ⟨1, 3⟩ := by
  have e0 : send_inverter_settings "SN1" "\x7b\x7d" loads0 initialGlobals
      (mkSuccessStream s) = sendLoop (mkSuccessStream s) 0 3 := rfl
  have e1 : sendLoop (mkSuccessStream s) 0 3 = sendLoop (mkSuccessStream s) 1 2 :=
    sendLoop_reject_step s 0 2 hs
  have e2 : sendLoop (mkSuccessStream s) 1 2 = sendLoop (mkSuccessStream s) 2 1 :=
    sendLoop_reject_step s 1 1 hs
  have e3 : sendLoop (mkSuccessStream s) 2 1 = sendLoop (mkSuccessStream s) 3 0 :=
    sendLoop_reject_step s 2 0 hs
  rw [e0, e1, e2, e3]
  rfl

/-- Helper: the Python comparison of a decoded value with the string "true"
succeeds exactly on the JSON string "true". -/
theorem pyEqStr_true_iff (s : JsonVal) :
    pyEqStr s "true" = true ↔ s = JsonVal.str "true" := by
  cases s <;> simp [pyEqStr]

/-- C1. Evaluation of the code at the input the claim describes: every
transport attempt succeeds and the body decodes to success "true" with
access_token "abc". Because `if api_call(...)` is truthy exactly when
api_call returns its failure status 1, a transport-successful api_call sends
get_auth_token to the log-and-retry else branch: the response is never
parsed, the call returns the failure status 1 after 3 transport attempts
(not success after one), the function-local triple is never assigned, the
process-wide globals stay empty, and validate_token still fails. -/
theorem c1_valid_response_never_acquired :
    get_auth_token initialGlobals okStream =
      Outcome.ok ⟨1, 3, ⟨none, none, none⟩, initialGlobals⟩ ∧
    validate_token initialGlobals = 1 := ⟨rfl, rfl⟩

/-- C2. Evaluation of the code at the input the claim describes: every
transport attempt succeeds but leaves a 0-byte response file in a non-discard
sink. The first two empty bodies are retried, but on the third (final)
attempt the incremented retry counter makes the inner retry test fail and
control falls through to `return 0`: the call reports success (status 0)
after 3 attempts, not the failure the claim requires. -/
theorem c2_empty_final_attempt_returns_success :
    api_call "POST" "https://api.sunsynk.net/oauth/token" "token.json" []
      emptyStream = Outcome.ok ⟨0, 3, FileState.present 0 none⟩ := rfl

/-- C3 counterexample. With a permanently failing transport, one call to
get_auth_token performs 9 transport POST attempts (its own loop of 3
iterations each running the full 3-attempt api_call), not the 3 the claim
states. -/
theorem c3_counterexample :
    attemptsOf (get_auth_token initialGlobals failStream) = 9 ∧
    attemptsOf (get_auth_token initialGlobals failStream) ≠ 3 :=
  ⟨rfl, by decide⟩

/-- C3 amended. With the configured policy (DEFAULT_MAX_RETRIES = 3) and a
transport that fails on every attempt leaving the response sink absent, a
single call to get_auth_token performs exactly 9 transport POST attempts (3
outer iterations, each delegating one full 3-attempt api_call) and then
returns the failure status 1. The response inspection runs inside each outer
iteration, but - because `if api_call(...)` is truthy precisely on the
failure status 1 - it runs on iterations whose transport failed; the
absent-sink hypothesis pins its outcome (a stale parseable sink surviving a
failing transport can instead make the call succeed, see
getAuth_mkStale_reject and the C4 theorem). -/
theorem c3_all_fail_nine_attempts (g : Globals) (outs : Nat → CurlOutcome)
    (h : ∀ i, outs i = CurlOutcome.mk false FileState.absent) :
    get_auth_token g outs = Outcome.ok ⟨1, 9, ⟨none, none, none⟩, g⟩ := by
  have e1 : getAuthLoop outs 0 ⟨none, none, none⟩ 3 =
      getAuthLoop outs 3 ⟨none, none, none⟩ 2 :=
    getAuthLoop_allFail_step outs 0 ⟨none, none, none⟩ 2 h
  have e2 : getAuthLoop outs 3 ⟨none, none, none⟩ 2 =
      getAuthLoop outs 6 ⟨none, none, none⟩ 1 :=
    getAuthLoop_allFail_step outs 3 ⟨none, none, none⟩ 1 h
  have e3 : getAuthLoop outs 6 ⟨none, none, none⟩ 1 =
      getAuthLoop outs 9 ⟨none, none, none⟩ 0 :=
    getAuthLoop_allFail_step outs 6 ⟨none, none, none⟩ 0 h
  unfold get_auth_token DEFAULT_MAX_RETRIES
  rw [e1, e2, e3]
  rfl

/-- C3 witness. The amended theorem applied to the concrete permanently
failing transport stream. -/
theorem c3_all_fail_nine_attempts_witness :
    get_auth_token initialGlobals failStream =
      Outcome.ok ⟨1, 9, ⟨none, none, none⟩, initialGlobals⟩ :=
  c3_all_fail_nine_attempts initialGlobals failStream (fun _ => rfl)

/-- C4 counterexample. A response whose success field is the JSON boolean
true (with a perfectly good access_token), delivered over a working
transport, is not treated as business success by get_auth_token: the call
returns status 1 after its retry budget. (On a transport-successful api_call
the inverted `if api_call(...)` test never reaches the body inspection at
all; and where the inspection does run, the Python comparison
`success == "true"` is false for the boolean True - see the amended
theorem.) -/
theorem c4_bool_true_rejected :
    statusOf (get_auth_token initialGlobals
      (mkSuccessStream (JsonVal.bool true))) = 1 ∧
    statusOf (get_auth_token initialGlobals
      (mkSuccessStream (JsonVal.bool true))) ≠ 0 :=
  ⟨rfl, by decide⟩

/-- C4 amended. Wherever a decoded success field is actually inspected,
exactly the JSON string "true" is treated as business success and every
other value, including the JSON boolean true, as business failure. In
send_inverter_settings the inspection runs after each transport-successful
attempt; in get_auth_token, because `if api_call(...)` is truthy precisely
on the failure status, the inspection runs only on iterations whose
api_call failed, reading the file those failed attempts left behind - hence
the stale-sink stream exercises it (9 transport attempts on rejection, 3 on
acceptance). -/
theorem c4_only_string_true_succeeds (s : JsonVal) :
    (statusOf (get_auth_token initialGlobals (mkStaleStream s)) = 0 ↔
      s = JsonVal.str "true") ∧
    (callStatusOf (send_inverter_settings "SN1" "\x7b\x7d" loads0
      initialGlobals (mkSuccessStream s)) = 0 ↔ s = JsonVal.str "true") := by
  by_cases hs : s = JsonVal.str "true"
  · subst hs
    exact ⟨iff_of_true rfl rfl, iff_of_true rfl rfl⟩
  · have hf : pyEqStr s "true" = false := by
      cases h : pyEqStr s "true" with
      | false => rfl
      | true => exact absurd ((pyEqStr_true_iff s).mp h) hs
    constructor
    · refine iff_of_false ?_ hs
      rw [getAuth_mkStale_reject s hf]
      simp [statusOf]
    · refine iff_of_false ?_ hs
      rw [send_mkSuccess_reject s hf]
      simp [callStatusOf]

/-- C5. pushSettings business-failure retry: when attempt 1 is a transport
success whose body decodes to success "false" and attempt 2 decodes to
success "true", send_inverter_settings returns success after exactly 2
transport attempts; a business failure inside a transport-successful response
is retried within the same attempt budget rather than being terminal. -/
theorem c5_push_retry_then_success :
    send_inverter_settings "SN1" "\x7b\x7d" loads0 initialGlobals
      pushFlipStream = Outcome.ok ⟨0, 2⟩ := rfl

/-- C6. When inverter_sn is empty, settings_data is empty, or settings_data
does not parse as JSON (the loads oracle returns none), send_inverter_settings
fails immediately with status 1 and performs zero transport attempts. -/
theorem c6_invalid_input_no_network (inverter_sn settings_data : String)
    (loads : String → Option JsonVal) (g : Globals)
    (outs : Nat → CurlOutcome)
    (h : inverter_sn = "" ∨ settings_data = "" ∨ loads settings_data = none) :
    send_inverter_settings inverter_sn settings_data loads g outs =
      Outcome.ok ⟨1, 0⟩ := by
  unfold send_inverter_settings
  rcases h with h | h | h
  · rw [if_pos (Or.inl h)]
  · rw [if_pos (Or.inr h)]
  · by_cases hp : inverter_sn = "" ∨ settings_data = ""
    · rw [if_pos hp]
    · rw [if_neg hp, h]

/-- C6 witness. A non-empty serial with a settings string the loads oracle
rejects: immediate failure, no transport attempt. -/
theorem c6_invalid_input_no_network_witness :
    send_inverter_settings "X" "oops" loads0 initialGlobals failStream =
      Outcome.ok ⟨1, 0⟩ :=
  c6_invalid_input_no_network "X" "oops" loads0 initialGlobals failStream
    (Or.inr (Or.inr rfl))

/-- C7. Any call to sunsynk_api_call made while the process-wide bearer token
is empty returns the failure status 1 after zero transport attempts; by
construction it delegates only to api_call, never to get_auth_token, so no
implicit token refresh happens. (When endpoint and output_file are non-empty
the failing guard is exactly the bearer-token check of api.py line 289.) -/
theorem c7_no_token_fails_fast (endpoint output_file : String) (g : Globals)
    (outs : Nat → CurlOutcome) (h : g.SERVER_API_BEARER_TOKEN = "") :
    sunsynk_api_call endpoint output_file g outs = Outcome.ok ⟨1, 0⟩ := by
  unfold sunsynk_api_call
  by_cases hp : endpoint = "" ∨ output_file = ""
  · rw [if_pos hp]
  · rw [if_neg hp, if_pos h]

/-- C7 witness. The specification scenario: fetching the inverters endpoint
into a real sink while the process-wide token is still empty. -/
theorem c7_no_token_fails_fast_witness :
    sunsynk_api_call "https://api.sunsynk.net/api/v1/inverters" "out.json"
      initialGlobals failStream = Outcome.ok ⟨1, 0⟩ :=
  c7_no_token_fails_fast "https://api.sunsynk.net/api/v1/inverters"
    "out.json" initialGlobals failStream rfl

/-- C8. The Token invariant on the process-wide state (a truthy stored
success flag implies a non-empty stored token value) holds at process start
and is preserved by every get_auth_token call, for every transport and decode
outcome, including a response carrying success "true" without an
access_token: get_auth_token only assigns function-local names, so the
process-wide triple it returns is the one it was given. validate_token,
sunsynk_api_call and send_inverter_settings only read the globals. -/
theorem c8_token_invariant :
    TokenInvariant initialGlobals ∧
    ∀ (g : Globals) (outs : Nat → CurlOutcome) (r : AuthRet),
      get_auth_token g outs = Outcome.ok r → TokenInvariant g →
        TokenInvariant r.globals := by
  constructor
  · intro h
    exact absurd h (by decide)
  · intro g outs r h hg
    rw [get_auth_token_globals_eq g outs r h]
    exact hg

/-- C8 witness. The preservation part applied to a state that satisfies the
invariant non-vacuously and an all-transport-success transcript. -/
theorem c8_token_invariant_witness : TokenInvariant gValid :=
  c8_token_invariant.2 gValid okStream
    ⟨1, 3, ⟨none, none, none⟩, gValid⟩
    rfl (fun _ => by decide)

/-- C9. Evaluation of the code at two failing inputs. First, curl exits 0
without creating the sink file (as older curl does for an empty body): the
unguarded os.stat of api_call (src/api.py line 234) raises FileNotFoundError
with no handler. Second, a permanently failing transport with a stale sink
holding the JSON document "maintenance" (a valid JSON text whose top-level
value is a string): get_auth_token enters its inspection branch, json.load
succeeds, and the unguarded response_data.get call raises AttributeError. In
both cases no integer status is returned, contradicting the claim that every
transport and file-system outcome yields a status. -/
theorem c9_response_inspection_faults :
    api_call "GET" "https://api.sunsynk.net/api/v1/inverters" "out.json" []
      ghostStream = Outcome.raised "FileNotFoundError" ∧
    get_auth_token initialGlobals staleNonObjStream =
      Outcome.raised "AttributeError" := ⟨rfl, rfl⟩

/-- C10. Frame property of get_auth_token: for every initial module state and
every transport transcript, the module-level globals after the call are the
ones before it (on a raising path the module state is trivially untouched).
The assignments inside get_auth_token bind function-local names, so
validate_token, sunsynk_api_call and send_inverter_settings never observe a
token acquired by get_auth_token. -/
theorem c10_globals_frame (g : Globals) (outs : Nat → CurlOutcome) :
    authGlobals (get_auth_token g outs) g = g := by
  cases h : get_auth_token g outs with
  | ok r => simpa [authGlobals] using get_auth_token_globals_eq g outs r h
  | raised e => rfl

end SunSync
